import Mathlib

/-!
Shallow embedding of the Watara Supervision emulator core
(src/main.cpp and src/sound.h) and proofs about its bus decoder,
interrupt/timer controller, and sound synthesis engine.

Conventions:
* machine integers are modelled as `Nat` with explicit `% 2^w` at the
  points where the C code's fixed-width types wrap;
* the byte arrays `RAM`, `VRAM`, `ROM` are modelled as total functions
  `Nat → Nat` together with explicit bound checks at every access site;
  an access whose index falls outside the C array's extent yields `none`
  (the C program would perform an out-of-bounds access there);
* reads of the keyboard and of the bus from the DMA engine are passed in
  as oracle functions.
-/

namespace WataraSV

/-- Global mutable state of main.cpp: memories, banking, LCD registers and
the interrupt/timer controller fields (including the function-local static
accumulator of Loop6502). -/
structure MainState where
  ram : Nat → Nat
  vram : Nat → Nat
  rom : Nat → Nat
  rom_size : Nat
  bank : Nat
  lcd : Nat → Nat
  irq_timer_counter : Nat
  irq_enabled : Bool
  nmi_enabled : Bool
  timer_prescaler : Nat
  timer : Nat

/-- Controller register value at 0x2020: active-low button bits, derived
from the host key-status array exactly as in main.cpp. -/
def readButtons (keys : Nat → Bool) : Nat :=
  let b : Nat := 0xFF
  let b := if keys 0x27 then b ^^^ 0x01 else b
  let b := if keys 0x25 then b ^^^ 0x02 else b
  let b := if keys 0x28 then b ^^^ 0x04 else b
  let b := if keys 0x26 then b ^^^ 0x08 else b
  let b := if keys 88 then b ^^^ 0x10 else b
  let b := if keys 90 then b ^^^ 0x20 else b
  let b := if keys 0x0d then b ^^^ 0x80 else b
  let b := if keys 0x20 then b ^^^ 0x80 else b
  b

/-- Bus read (Rd6502 in main.cpp).  Returns the byte read together with the
updated state (two status reads clear `irq_enabled`), or `none` when the C
code would index one of the fixed arrays out of bounds.  The high-ROM index
computation reproduces the size_t arithmetic `rom_size - 16384 + (address -
0xC000)` modulo 2^64. -/
def Rd6502 (keys : Nat → Bool) (s : MainState) (address : Nat) :
    Option (Nat × MainState) :=
  if address ≤ 0x1FFF then some (s.ram address, s)
  else if address = 0x2023 then some (s.irq_timer_counter, s)
  else if address = 0x2024 then some (1, { s with irq_enabled := false })
  else if address = 0x2025 then some (0, s)
  else if address = 0x2027 then some (3, { s with irq_enabled := false })
  else if 0x2000 ≤ address ∧ address ≤ 0x2007 then some (s.lcd (address % 4), s)
  else if address = 0x2020 then some (readButtons keys, s)
  else if 0xC000 ≤ address then
    let idx := (s.rom_size + (2 ^ 64 - 16384) + (address - 0xC000)) % 2 ^ 64
    if idx < 131072 then some (s.rom idx, s) else none
  else if 0x8000 ≤ address ∧ address ≤ 0xBFFF then
    let idx := s.bank + (address - 0x8000)
    if idx < 131072 then some (s.rom idx, s) else none
  else if 0x4000 ≤ address then
    let idx := address - 0x4000
    if idx < 8192 then some (s.vram idx, s) else none
  else some (0xFF, s)

/-- Bus write (Wr6502 in main.cpp).  Returns the updated state and a flag
that is true when the write itself asserted the CPU IRQ line (the
`Int6502(&cpu, INT_IRQ)` call in the 0x2023 handler), or `none` when the C
code would index an array out of bounds. -/
def Wr6502 (s : MainState) (address value : Nat) :
    Option (MainState × Bool) :=
  let value := value % 256
  if address ≤ 0x1FFF then
    some ({ s with ram := fun i => if i = address then value else s.ram i }, false)
  else if 0x2000 ≤ address ∧ address ≤ 0x2007 then
    some ({ s with lcd := fun i => if i = address % 4 then value else s.lcd i }, false)
  else if 0x2008 ≤ address ∧ address ≤ 0x200D then some (s, false)
  else if 0x2021 ≤ address ∧ address ≤ 0x2022 then some (s, false)
  else if 0x2010 ≤ address ∧ address ≤ 0x201C then some (s, false)
  else if 0x2028 ≤ address ∧ address ≤ 0x202F then some (s, false)
  else if address = 0x2023 then
    some ({ s with irq_timer_counter := value, timer_prescaler := 256 },
      value == 0 && s.irq_enabled)
  else if address = 0x2026 then
    some ({ s with
        bank := (value >>> 5) * 16384,
        nmi_enabled := value &&& 1 == 1,
        irq_enabled := value &&& 2 == 2,
        timer_prescaler := if value &&& 5 == 1 then 16384 else 256 }, false)
  else if 0x4000 ≤ address then
    let idx := address - 0x4000
    if idx < 8192 then
      some ({ s with vram := fun i => if i = idx then value else s.vram i }, false)
    else none
  else some (s, false)

/-- Per-instruction-block timer tick (Loop6502 in main.cpp).  Returns the
updated state and a flag that is true when the callback returned INT_IRQ.
The uint8_t countdown decrement wraps modulo 256 and the int accumulator
wraps modulo 2^32. -/
def Loop6502 (s : MainState) : MainState × Bool :=
  if s.irq_enabled ∧ s.irq_timer_counter = 0 then
    ({ s with irq_enabled := false }, true)
  else if s.timer_prescaler = 256 then
    ({ s with irq_timer_counter := (s.irq_timer_counter + 255) % 256 }, false)
  else
    let t := (s.timer + 256) % 2 ^ 32
    if t = s.timer_prescaler then
      ({ s with irq_timer_counter := (s.irq_timer_counter + 255) % 256, timer := 0 }, false)
    else
      ({ s with timer := t }, false)

/-- Concrete power-on-like state used for counterexamples and witnesses:
zeroed memories, timer expired (countdown 0) with IRQ enabled, prescaler
divide-by-256. -/
def mainState0 : MainState where
  ram := fun _ => 0
  vram := fun _ => 0
  rom := fun _ => 0
  rom_size := 131072
  bank := 0
  lcd := fun _ => 0
  irq_timer_counter := 0
  irq_enabled := true
  nmi_enabled := true
  timer_prescaler := 256
  timer := 0

/-- C1: on the tick where the countdown is 0 with IRQ enabled, Loop6502
signals IRQ once and leaves the countdown at 0; but on the very next tick
(IRQ now disabled) the uint8_t decrement wraps the countdown from 0 to 255,
contradicting the claim (and the comment in main.cpp, quoting the hardware
documentation, that the timer "will stay at 00h"). -/
theorem c1_timer_wraps_after_irq :
    (Loop6502 mainState0).2 = true ∧
    (Loop6502 mainState0).1.irq_timer_counter = 0 ∧
    (Loop6502 (Loop6502 mainState0).1).1.irq_timer_counter = 255 := by
  refine ⟨rfl, rfl, rfl⟩

/-- C2: a write of byte v to 0x2023 reloads the countdown with v, resets the
prescaler select to divide-by-256, and asserts IRQ synchronously within the
write exactly when v = 0 and IRQ is enabled. -/
theorem c2_timer_write (s : MainState) (v : Nat) (hv : v < 256) :
    Wr6502 s 0x2023 v =
      some ({ s with irq_timer_counter := v, timer_prescaler := 256 },
        v == 0 && s.irq_enabled) := by
  unfold Wr6502
  simp [Nat.mod_eq_of_lt hv]

/-- Witness for c2_timer_write: writing 0 to 0x2023 in a state with IRQ
enabled reloads the counter with 0, resets the prescaler and asserts IRQ
within the same write. -/
theorem c2_timer_write_witness :
    Wr6502 mainState0 0x2023 0 =
      some ({ mainState0 with irq_timer_counter := 0, timer_prescaler := 256 },
        true) := by
  have h := c2_timer_write mainState0 0 (by decide)
  simpa [mainState0] using h

/-- C3: the bus does not return the 0xFF sentinel on every undefined
address.  A read at 0x6000 and a write at 0x8000 both fall into the final
`address >= 0x4000` VRAM branch and index the 8192-byte VRAM array out of
bounds (indices 0x2000 and 0x4000), modelled here as `none`. -/
theorem c3_undefined_range_oob :
    Rd6502 (fun _ => false) mainState0 0x6000 = none ∧
    Wr6502 mainState0 0x8000 0xAB = none := by
  refine ⟨rfl, rfl⟩

/-- Square wave channel state (SV_CHANNEL in sound.h); the four raw
register bytes are modelled as named fields reg0..reg3. -/
structure SV_CHANNEL where
  reg0 : Nat
  reg1 : Nat
  reg2 : Nat
  reg3 : Nat
  duty : Nat
  volume : Nat
  length : Nat
  enabled : Bool
  position : Nat
  size : Nat
deriving DecidableEq

/-- Noise channel state (SV_NOISE_CHANNEL in sound.h). -/
structure SV_NOISE_CHANNEL where
  reg0 : Nat
  reg1 : Nat
  reg2 : Nat
  volume : Nat
  frequency : Nat
  length : Nat
  noise_enable : Bool
  left_output : Bool
  right_output : Bool
  continuous_mode : Bool
  lfsr_mode : Bool
  divisor : Nat
  position : Nat
  lfsr : Nat
deriving DecidableEq

/-- DMA channel state (SV_DMA_CHANNEL in sound.h). -/
structure SV_DMA_CHANNEL where
  reg0 : Nat
  reg1 : Nat
  reg2 : Nat
  reg3 : Nat
  reg4 : Nat
  address : Nat
  length : Nat
  rom_bank : Nat
  left_output : Bool
  right_output : Bool
  frequency : Nat
  triggered : Bool
  current_address : Nat
  current_byte : Nat
  high_nibble : Bool
  position : Nat
  samples_played : Nat
  clock_divisor : Nat
deriving DecidableEq

/-- Whole sound engine state: the channels[2] array, the noise channel and
the DMA channel. -/
structure SoundState where
  ch0 : SV_CHANNEL
  ch1 : SV_CHANNEL
  noise : SV_NOISE_CHANNEL
  dma : SV_DMA_CHANNEL
deriving DecidableEq

/-- Zeroed square channel, as produced by the memset in sound_init. -/
def initChannel : SV_CHANNEL :=
  { reg0 := 0, reg1 := 0, reg2 := 0, reg3 := 0, duty := 0, volume := 0,
    length := 0, enabled := false, position := 0, size := 0 }

/-- Noise channel after sound_init: zeroed, then lfsr set to 0x7FFF and
divisor defaulted to 8. -/
def initNoise : SV_NOISE_CHANNEL :=
  { reg0 := 0, reg1 := 0, reg2 := 0, volume := 0, frequency := 0, length := 0,
    noise_enable := false, left_output := false, right_output := false,
    continuous_mode := false, lfsr_mode := false, divisor := 8, position := 0,
    lfsr := 0x7FFF }

/-- Zeroed DMA channel, as produced by the memset in sound_init. -/
def initDma : SV_DMA_CHANNEL :=
  { reg0 := 0, reg1 := 0, reg2 := 0, reg3 := 0, reg4 := 0, address := 0,
    length := 0, rom_bank := 0, left_output := false, right_output := false,
    frequency := 0, triggered := false, current_address := 0, current_byte := 0,
    high_nibble := false, position := 0, samples_played := 0, clock_divisor := 0 }

/-- State established by sound_init. -/
def sound_init : SoundState :=
  { ch0 := initChannel, ch1 := initChannel, noise := initNoise, dma := initDma }

/-- Store into the channel's raw register array reg[reg_index] (indices
0..3; callers guard the range). -/
def setWaveReg (reg_index value : Nat) (c : SV_CHANNEL) : SV_CHANNEL :=
  match reg_index with
  | 0 => { c with reg0 := value }
  | 1 => { c with reg1 := value }
  | 2 => { c with reg2 := value }
  | _ => { c with reg3 := value }

/-- Register write handler for the square wave channels (sound_wave_write
in sound.h).  Out-of-range channel or register indices are rejected by the
guard and leave the state unchanged. -/
def sound_wave_write (channel_index reg_index value : Nat) (s : SoundState) :
    SoundState :=
  if channel_index > 1 ∨ reg_index > 3 then s
  else
    let value := value % 256
    let c := if channel_index = 0 then s.ch0 else s.ch1
    let c := setWaveReg reg_index value c
    let c :=
      if reg_index = 0 ∨ reg_index = 1 then
        let period_value := c.reg0 ||| ((c.reg1 &&& 0x07) <<< 8)
        { c with
          size := 44100 * ((period_value + 1) <<< 5) / 4000000 % 65536,
          position := 0 }
      else if reg_index = 2 then
        { c with
          enabled := value &&& 0x40 != 0,
          duty := (value &&& 0x30) >>> 4,
          volume := value &&& 0x0F }
      else
        { c with length := value + 1 }
    if channel_index = 0 then { s with ch0 := c } else { s with ch1 := c }

/-- Fixed 16-entry divisor table of the noise channel's frequency code. -/
def noiseDivisors (f : Nat) : Nat :=
  match f with
  | 0 => 8      | 1 => 32     | 2 => 64     | 3 => 128
  | 4 => 256    | 5 => 512    | 6 => 1024   | 7 => 2048
  | 8 => 4096   | 9 => 8192   | 10 => 16384 | 11 => 32768
  | 12 => 65536 | 13 => 131072 | 14 => 65536 | _ => 131072

/-- Register write handler for the noise channel (sound_noise_write in
sound.h).  Out-of-range register indices leave the state unchanged;
writing the control register (index 2) resets the LFSR to 0x7FFF and the
position to 0 unconditionally. -/
def sound_noise_write (reg_index value : Nat) (n : SV_NOISE_CHANNEL) :
    SV_NOISE_CHANNEL :=
  if reg_index > 2 then n
  else
    let value := value % 256
    match reg_index with
    | 0 =>
      let n := { n with reg0 := value }
      let freq := (value &&& 0xF0) >>> 4
      { n with
        frequency := freq,
        volume := value &&& 0x0F,
        divisor := noiseDivisors freq }
    | 1 =>
      let n := { n with reg1 := value }
      { n with length := value }
    | _ =>
      let n := { n with reg2 := value }
      { n with
        noise_enable := value &&& 0x10 != 0,
        left_output := value &&& 0x04 != 0,
        right_output := value &&& 0x02 != 0,
        continuous_mode := value &&& 0x01 != 0,
        lfsr_mode := value &&& 0x01 != 0,
        lfsr := 0x7FFF,
        position := 0 }

/-- Fixed divisor table of the DMA channel's 2-bit frequency code. -/
def dmaDivisors (f : Nat) : Nat :=
  match f with
  | 0 => 256
  | 1 => 512
  | 2 => 1024
  | _ => 2048

/-- Register write handler for the DMA channel (sound_dma_write in
sound.h).  Unlike the other two handlers this function has no range guard:
the C code stores into reg[reg_index] before the switch, so a register
index outside 0..4 is an out-of-bounds array store, modelled as `none`.
The trigger register read of the first sample byte goes through the bus
read oracle rd (Rd6502 in the C code). -/
def sound_dma_write (rd : Nat → Nat) (reg_index value : Nat)
    (d : SV_DMA_CHANNEL) : Option SV_DMA_CHANNEL :=
  let value := value % 256
  match reg_index with
  | 0 =>
    let d := { d with reg0 := value }
    some { d with address := (d.address &&& 0xFF00) ||| value }
  | 1 =>
    let d := { d with reg1 := value }
    some { d with address := (d.address &&& 0x00FF) ||| (value <<< 8) }
  | 2 =>
    let d := { d with reg2 := value }
    some { d with length := value }
  | 3 =>
    let d := { d with reg3 := value }
    let fr := value &&& 0x03
    some { d with
      rom_bank := (value &&& 0x70) >>> 4,
      left_output := value &&& 0x04 != 0,
      right_output := value &&& 0x02 != 0,
      frequency := fr,
      clock_divisor := dmaDivisors fr }
  | 4 =>
    let d := { d with reg4 := value }
    if value &&& 0x80 ≠ 0 then
      if d.samples_played = 0 then
        some { d with
          triggered := true,
          current_address := d.address,
          samples_played := 0,
          position := 0,
          high_nibble := true,
          current_byte := rd d.address % 256 }
      else
        some { d with triggered := true }
    else
      some { d with triggered := false }
  | _ => none

/-- Duty threshold of a square channel (get_duty_threshold in sound.h). -/
def get_duty_threshold (c : SV_CHANNEL) : Nat :=
  match c.duty with
  | 0 => c.size / 8
  | 1 => c.size / 4
  | 2 => c.size / 2
  | 3 => c.size * 3 / 4
  | _ => c.size / 2

/-- One LFSR advance (update_noise_lfsr in sound.h): feedback is bit0 XOR
bit1, the register shifts right, the feedback bit is planted at bit 14
(15-bit mode) or — after masking to 7 bits — at bit 6 (7-bit mode), and a
zero result is forced back to the mode's all-ones value. -/
def update_noise_lfsr (n : SV_NOISE_CHANNEL) : SV_NOISE_CHANNEL :=
  let bit0 := n.lfsr &&& 1
  let bit1 := (n.lfsr &&& 2) >>> 1
  let feedback := bit0 ^^^ bit1
  let l := n.lfsr >>> 1
  let l :=
    if feedback ≠ 0 then
      if n.lfsr_mode then l ||| 0x4000
      else (l &&& 0x7F) ||| 0x40
    else l
  if l = 0 then { n with lfsr := if n.lfsr_mode then 0x7FFF else 0x7F }
  else { n with lfsr := l }

/-- Square-channel part of one sample tick of sound_generate_sample:
returns the updated channel and its contribution to the (identical) left
and right mix legs.  Both uint16 position arithmetic steps wrap mod 2^16. -/
def pulse_step (c : SV_CHANNEL) : SV_CHANNEL × Nat :=
  if c.enabled ∧ 0 < c.size then
    let contrib := if c.position < get_duty_threshold c then c.volume else 0
    let p := (c.position + 1) % 65536
    if c.size ≤ p then
      let c := { c with position := 0 }
      let c :=
        if 0 < c.length then
          let len := c.length - 1
          if len = 0 then { c with length := 0, enabled := false }
          else { c with length := len }
        else c
      (c, contrib)
    else
      ({ c with position := p }, contrib)
  else (c, 0)

/-- Body of the noise block of sound_generate_sample, entered only when
noise_enable is set: advance the position toward the scaled period
(computed in uint32 arithmetic, hence the mod 2^32), and on reaching it
reset the position, advance the LFSR and run the length counter when not
in continuous mode. -/
def noise_step_inner (n : SV_NOISE_CHANNEL) : SV_NOISE_CHANNEL :=
  let noise_period := 44100 * n.divisor % 2 ^ 32 / 4000000 % 65536
  let noise_period := if noise_period = 0 then 1 else noise_period
  let p := (n.position + 1) % 65536
  if noise_period ≤ p then
    let n := update_noise_lfsr { n with position := 0 }
    if ¬n.continuous_mode ∧ 0 < n.length then
      let len := n.length - 1
      if len = 0 then { n with length := 0, noise_enable := false }
      else { n with length := len }
    else n
  else { n with position := p }

/-- Noise channel advance over one sample tick: the whole block is guarded
by noise_enable. -/
def noise_step (n : SV_NOISE_CHANNEL) : SV_NOISE_CHANNEL :=
  if n.noise_enable then noise_step_inner n else n

/-- DMA part of one sample tick of sound_generate_sample.  Returns the
updated channel and `none` when the C code takes the early `return 0`
(sample exhausted: triggered cleared, whole sample silenced), otherwise
`some` of the DMA contribution to final_output (0 when not triggered). -/
def dma_step (rd : Nat → Nat) (d : SV_DMA_CHANNEL) :
    SV_DMA_CHANNEL × Option Nat :=
  if d.triggered then
    let total_bytes := if d.length = 0 then 4096 else d.length * 16
    let total_samples := total_bytes * 2
    if total_samples ≤ d.samples_played then
      ({ d with triggered := false }, none)
    else if d.high_nibble then
      ({ d with
          high_nibble := false,
          samples_played := (d.samples_played + 1) % 65536 },
        some ((d.current_byte >>> 4) &&& 0x0F))
    else
      let addr := (d.current_address + 1) % 65536
      ({ d with
          current_address := addr,
          current_byte := rd addr % 256,
          high_nibble := true,
          samples_played := (d.samples_played + 1) % 65536 },
        some (d.current_byte &&& 0x0F))
  else (d, some 0)

/-- One sample tick (sound_generate_sample in sound.h): advances both
square channels, the noise channel and the DMA channel, and returns the
produced 16-bit sample value together with the updated state.  The final
value is (final_output + (left+right)/2) << 8, except that DMA exhaustion
takes the early return 0. -/
def sound_generate_sample (rd : Nat → Nat) (s : SoundState) :
    SoundState × Nat :=
  let r0 := pulse_step s.ch0
  let r1 := pulse_step s.ch1
  let left := r0.2 + r1.2
  let right := r0.2 + r1.2
  let nlr :=
    if s.noise.noise_enable then
      let n := noise_step_inner s.noise
      let lo := if n.noise_enable ∧ n.lfsr &&& 1 ≠ 0 ∧ n.left_output then n.volume else 0
      let ro := if n.noise_enable ∧ n.lfsr &&& 1 ≠ 0 ∧ n.right_output then n.volume else 0
      (n, left + lo, right + ro)
    else (s.noise, left, right)
  let dr := dma_step rd s.dma
  let s2 := { s with ch0 := r0.1, ch1 := r1.1, noise := nlr.1, dma := dr.1 }
  match dr.2 with
  | none => (s2, 0)
  | some fo => (s2, (fo + (nlr.2.1 + nlr.2.2) / 2) * 256)

/-- One operation against the noise channel state: an LFSR advance
(update_noise_lfsr, as invoked from the sample tick) or an arbitrary
noise register write arriving over the bus. -/
inductive NoiseOp where
  | advance : NoiseOp
  | write (reg_index value : Nat) : NoiseOp

/-- Apply one noise operation. -/
def applyNoiseOp (n : SV_NOISE_CHANNEL) (op : NoiseOp) : SV_NOISE_CHANNEL :=
  match op with
  | .advance => update_noise_lfsr n
  | .write i v => sound_noise_write i v n

/-- Run a sequence of noise operations from the state left by sound_init. -/
def runNoiseOps (ops : List NoiseOp) : SV_NOISE_CHANNEL :=
  ops.foldl applyNoiseOp initNoise

/-- An LFSR advance always leaves the register nonzero: the final fixup of
update_noise_lfsr forces a zero result back to the mode's all-ones value. -/
theorem update_noise_lfsr_lfsr_ne_zero (n : SV_NOISE_CHANNEL) :
    (update_noise_lfsr n).lfsr ≠ 0 := by
  simp only [update_noise_lfsr]
  repeat' split
  all_goals simp_all

/-- A noise register write preserves a nonzero LFSR: registers 0 and 1 do
not touch it, and the control register resets it to 0x7FFF. -/
theorem sound_noise_write_lfsr_ne_zero (i v : Nat) (n : SV_NOISE_CHANNEL)
    (h : n.lfsr ≠ 0) : (sound_noise_write i v n).lfsr ≠ 0 := by
  by_cases hg : i > 2
  · simpa [sound_noise_write, hg] using h
  · cases i with
    | zero => simpa [sound_noise_write, hg] using h
    | succ j =>
      cases j with
      | zero => simpa [sound_noise_write, hg] using h
      | succ k => simp [sound_noise_write, hg]

/-- C4: from initialization, the noise LFSR is nonzero after any number of
LFSR advances interleaved arbitrarily with noise register writes, in both
15-bit and 7-bit modes. -/
theorem c4_lfsr_never_zero (ops : List NoiseOp) : (runNoiseOps ops).lfsr ≠ 0 := by
  have key : ∀ (l : List NoiseOp) (n : SV_NOISE_CHANNEL), n.lfsr ≠ 0 →
      (l.foldl applyNoiseOp n).lfsr ≠ 0 := by
    intro l
    induction l with
    | nil => intro n h; exact h
    | cons op t ih =>
      intro n h
      apply ih
      cases op with
      | advance => exact update_noise_lfsr_lfsr_ne_zero n
      | write i v => exact sound_noise_write_lfsr_ne_zero i v n h
  exact key ops initNoise (by decide)

/-- Iterated LFSR advances. -/
def lfsrAdvIter (k : Nat) (n : SV_NOISE_CHANNEL) : SV_NOISE_CHANNEL :=
  match k with
  | 0 => n
  | j + 1 => update_noise_lfsr (lfsrAdvIter j n)

/-- Noise channel right after writing byte v to the control register
(sub-index 2) from the initial state. -/
def noiseAfterCtrl (v : Nat) : SV_NOISE_CHANNEL :=
  sound_noise_write 2 v initNoise

/-- C8 counterexample: writing the control register with bit 0 set selects
the 15-bit LFSR mode in the code (lfsr_mode := bit0), and already the first
advance leaves lfsr = 0x3FFF, which does not fit in 7 bits. -/
theorem c8_lfsr_7bit_cex :
    (lfsrAdvIter 1 (noiseAfterCtrl 1)).lfsr = 0x3FFF ∧
    ¬ (lfsrAdvIter 1 (noiseAfterCtrl 1)).lfsr ≤ 0x7F := by
  exact ⟨rfl, by decide⟩

set_option maxRecDepth 100000 in
/-- C8 amended: bit 0 clear selects 7-bit mode; the control write resets
the LFSR to the 15-bit all-ones value 0x7FFF, so the first 7 advances still
exceed 7 bits, but every one of the 200 following advances keeps the LFSR
nonzero, and from the 8th advance on it fits within 7 bits. -/
theorem c8_lfsr_7bit_amended :
    ∀ k < 201, (1 ≤ k → (lfsrAdvIter k (noiseAfterCtrl 0)).lfsr ≠ 0) ∧
      (8 ≤ k → (lfsrAdvIter k (noiseAfterCtrl 0)).lfsr ≤ 0x7F) := by
  decide

/-- Witness for c8_lfsr_7bit_amended at k = 8. -/
theorem c8_lfsr_7bit_amended_witness :
    (lfsrAdvIter 8 (noiseAfterCtrl 0)).lfsr ≠ 0 ∧
    (lfsrAdvIter 8 (noiseAfterCtrl 0)).lfsr ≤ 0x7F := by
  exact ⟨(c8_lfsr_7bit_amended 8 (by decide)).1 (by decide),
         (c8_lfsr_7bit_amended 8 (by decide)).2 (by decide)⟩

/-- C9: a pulse write with a channel index outside 0..1 and a noise write
with a register index outside 0..2 are silently ignored, but a DMA write
with register index 5 stores into reg[5] of a 5-element array before the
switch dispatch — an out-of-bounds access, modelled as `none`. -/
theorem c9_malformed_subindex :
    sound_dma_write (fun _ => 0) 5 0xAB initDma = none ∧
    sound_wave_write 2 0 7 sound_init = sound_init ∧
    sound_noise_write 3 7 initNoise = initNoise := by
  exact ⟨rfl, rfl, rfl⟩

/-- C10: any write to the noise control register (sub-index 2) derives both
continuous_mode and lfsr_mode from bit 0 of the written value, so the two
flags are equal afterwards. -/
theorem c10_continuous_eq_lfsr_mode (v : Nat) (n : SV_NOISE_CHANNEL) :
    (sound_noise_write 2 v n).continuous_mode =
      (sound_noise_write 2 v n).lfsr_mode := by
  rfl

/-- One operation against the whole sound engine state: a sample tick
(sound_generate_sample, with its bus-read oracle) or a pulse/noise
register write arriving over the bus. -/
inductive SoundOp where
  | tick (rd : Nat → Nat) : SoundOp
  | wave (channel_index reg_index value : Nat) : SoundOp
  | noisew (reg_index value : Nat) : SoundOp

/-- Apply one sound operation. -/
def applySoundOp (s : SoundState) (op : SoundOp) : SoundState :=
  match op with
  | .tick rd => (sound_generate_sample rd s).1
  | .wave c i v => sound_wave_write c i v s
  | .noisew i v => { s with noise := sound_noise_write i v s.noise }

/-- Run a sequence of sound operations from the state left by sound_init. -/
def runSoundOps (ops : List SoundOp) : SoundState :=
  ops.foldl applySoundOp sound_init

/-- A sample tick never changes a square channel's size. -/
theorem pulse_step_size (c : SV_CHANNEL) : (pulse_step c).1.size = c.size := by
  unfold pulse_step
  dsimp only
  repeat' split
  all_goals rfl

/-- A sample tick keeps the position of a square channel below its size,
provided the size fits in 16 bits. -/
theorem pulse_step_position (c : SV_CHANNEL) (hsz : c.size < 65536)
    (hpos : 0 < c.size → c.position < c.size) :
    0 < c.size → (pulse_step c).1.position < c.size := by
  intro hs
  have hp := hpos hs
  unfold pulse_step
  dsimp only
  repeat' split
  all_goals simp_all

/-- The sample tick updates channel 0 through pulse_step. -/
theorem sound_generate_sample_ch0 (rd : Nat → Nat) (s : SoundState) :
    (sound_generate_sample rd s).1.ch0 = (pulse_step s.ch0).1 := by
  cases hdr : (dma_step rd s.dma).2 with
  | none => simp [sound_generate_sample, hdr]
  | some fo => simp [sound_generate_sample, hdr]

/-- The sample tick updates channel 1 through pulse_step. -/
theorem sound_generate_sample_ch1 (rd : Nat → Nat) (s : SoundState) :
    (sound_generate_sample rd s).1.ch1 = (pulse_step s.ch1).1 := by
  cases hdr : (dma_step rd s.dma).2 with
  | none => simp [sound_generate_sample, hdr]
  | some fo => simp [sound_generate_sample, hdr]

/-- Per-channel part of sound_wave_write: store the raw register byte,
then recompute size/position on a period write, flags on a control write
and the counter on a length write. -/
theorem setWaveReg_position (i v : Nat) (c : SV_CHANNEL) :
    (setWaveReg i v c).position = c.position := by
  match i with
  | 0 => rfl
  | 1 => rfl
  | 2 => rfl
  | k + 3 => rfl

/-- setWaveReg never changes the derived size. -/
theorem setWaveReg_size (i v : Nat) (c : SV_CHANNEL) :
    (setWaveReg i v c).size = c.size := by
  match i with
  | 0 => rfl
  | 1 => rfl
  | 2 => rfl
  | k + 3 => rfl

/-- Size/position well-formedness of both square channels: the invariant of
claim C5, strengthened with the 16-bit size bound maintained by the code. -/
def SoundInv (s : SoundState) : Prop :=
  (s.ch0.size < 65536 ∧ (0 < s.ch0.size → s.ch0.position < s.ch0.size)) ∧
  (s.ch1.size < 65536 ∧ (0 < s.ch1.size → s.ch1.position < s.ch1.size))

/-- A wave register write preserves the channel invariant (and establishes
position = 0 afresh on period writes). -/
theorem sound_wave_write_inv (ci ri v : Nat) (s : SoundState) (h : SoundInv s) :
    SoundInv (sound_wave_write ci ri v s) := by
  obtain ⟨⟨h0s, h0p⟩, ⟨h1s, h1p⟩⟩ := h
  unfold sound_wave_write
  split
  · exact ⟨⟨h0s, h0p⟩, ⟨h1s, h1p⟩⟩
  · unfold SoundInv
    repeat' split
    all_goals simp_all [setWaveReg_position, setWaveReg_size]
    all_goals omega

/-- A sample tick preserves the channel invariant. -/
theorem sound_generate_sample_inv (rd : Nat → Nat) (s : SoundState)
    (h : SoundInv s) : SoundInv ((sound_generate_sample rd s).1) := by
  obtain ⟨⟨h0s, h0p⟩, ⟨h1s, h1p⟩⟩ := h
  refine ⟨?_, ?_⟩
  · rw [sound_generate_sample_ch0]
    rw [pulse_step_size]
    exact ⟨h0s, pulse_step_position s.ch0 h0s h0p⟩
  · rw [sound_generate_sample_ch1]
    rw [pulse_step_size]
    exact ⟨h1s, pulse_step_position s.ch1 h1s h1p⟩

/-- Any sequence of ticks and register writes from the initial state keeps
the invariant. -/
theorem runSoundOps_inv (ops : List SoundOp) : SoundInv (runSoundOps ops) := by
  have key : ∀ (l : List SoundOp) (s : SoundState), SoundInv s →
      SoundInv (l.foldl applySoundOp s) := by
    intro l
    induction l with
    | nil => intro s h; exact h
    | cons op t ih =>
      intro s h
      apply ih
      cases op with
      | tick rd => exact sound_generate_sample_inv rd s h
      | wave c i v => exact sound_wave_write_inv c i v s h
      | noisew i v => exact h
  exact key ops sound_init ⟨⟨by decide, by decide⟩, ⟨by decide, by decide⟩⟩

/-- C5: after any number of sample ticks interleaved with register writes
from initialization, each pulse channel with size > 0 has position < size;
a tick that advances the position to the size wraps it to 0; and a period
register write (sub-index 0 or 1) resets the position to 0. -/
theorem c5_pulse_position_invariant :
    (∀ ops : List SoundOp,
      (0 < (runSoundOps ops).ch0.size →
        (runSoundOps ops).ch0.position < (runSoundOps ops).ch0.size) ∧
      (0 < (runSoundOps ops).ch1.size →
        (runSoundOps ops).ch1.position < (runSoundOps ops).ch1.size)) ∧
    (∀ c : SV_CHANNEL, c.enabled = true → c.position + 1 = c.size →
      c.size < 65536 → (pulse_step c).1.position = 0) ∧
    (∀ (s : SoundState) (ri v : Nat), ri ≤ 1 →
      (sound_wave_write 0 ri v s).ch0.position = 0 ∧
      (sound_wave_write 1 ri v s).ch1.position = 0) := by
  refine ⟨?_, ?_, ?_⟩
  · intro ops
    have h := runSoundOps_inv ops
    exact ⟨h.1.2, h.2.2⟩
  · intro c hen hps hsz
    have h0 : 0 < c.size := by omega
    have hp : (c.position + 1) % 65536 = c.size := by omega
    unfold pulse_step
    dsimp only
    repeat' split
    all_goals (try simp_all)
    all_goals omega
  · intro s ri v hri
    interval_cases ri
    all_goals constructor
    all_goals simp [sound_wave_write, setWaveReg]

/-- Witness for c5_pulse_position_invariant: a period write of 100 on
channel 0 (size 35), a control write enabling the channel, and one tick
leave position 1 < 35; a channel at position 34 of size 35 wraps to 0; and
a period write on the fresh state resets position to 0. -/
theorem c5_pulse_position_invariant_witness :
    (runSoundOps [SoundOp.wave 0 0 100, SoundOp.wave 0 2 0x45,
        SoundOp.tick (fun _ => 0)]).ch0.position <
      (runSoundOps [SoundOp.wave 0 0 100, SoundOp.wave 0 2 0x45,
        SoundOp.tick (fun _ => 0)]).ch0.size ∧
    (pulse_step { initChannel with enabled := true, position := 34, size := 35 }).1.position = 0 ∧
    (sound_wave_write 0 0 5 sound_init).ch0.position = 0 := by
  refine ⟨?_, ?_, ?_⟩
  · exact (c5_pulse_position_invariant.1 _).1 (by decide)
  · exact c5_pulse_position_invariant.2.1 _ rfl (by decide) (by decide)
  · exact (c5_pulse_position_invariant.2.2 sound_init 0 5 (by decide)).1

/-- Iterated DMA-channel sample steps. -/
def dmaIter (rd : Nat → Nat) (k : Nat) (d : SV_DMA_CHANNEL) : SV_DMA_CHANNEL :=
  match k with
  | 0 => d
  | j + 1 => (dma_step rd (dmaIter rd j d)).1

/-- Unfolding lemma for dmaIter at a successor index. -/
theorem dmaIter_succ (rd : Nat → Nat) (k : Nat) (d : SV_DMA_CHANNEL) :
    dmaIter rd (k + 1) d = (dma_step rd (dmaIter rd k d)).1 := rfl

/-- One DMA sample step of a triggered channel with length code 0 that has
not yet exhausted its 8192 nibble-samples: it emits a nibble and advances
the samples_played counter, staying triggered. -/
theorem dma_step_run (rd : Nat → Nat) (d : SV_DMA_CHANNEL)
    (ht : d.triggered = true) (hl : d.length = 0)
    (hs : d.samples_played < 8192) :
    (dma_step rd d).1.triggered = true ∧ (dma_step rd d).1.length = 0 ∧
    (dma_step rd d).1.samples_played = d.samples_played + 1 ∧
    ∃ out, (dma_step rd d).2 = some out := by
  unfold dma_step
  dsimp only
  repeat' split
  all_goals simp_all
  all_goals omega

/-- While a length-0 DMA playback is running, iterating the sample step k
times (k up to 8192) leaves the channel triggered with samples_played = k. -/
theorem dmaIter_inv (rd : Nat → Nat) (d : SV_DMA_CHANNEL)
    (ht : d.triggered = true) (hl : d.length = 0) (hs : d.samples_played = 0) :
    ∀ k ≤ 8192, (dmaIter rd k d).triggered = true ∧
      (dmaIter rd k d).length = 0 ∧ (dmaIter rd k d).samples_played = k := by
  intro k
  induction k with
  | zero => intro _; exact ⟨ht, hl, hs⟩
  | succ j ih =>
    intro hk
    have hj := ih (by omega)
    have hstep := dma_step_run rd (dmaIter rd j d) hj.1 hj.2.1 (by omega)
    refine ⟨hstep.1, hstep.2.1, ?_⟩
    rw [dmaIter_succ, hstep.2.2.1, hj.2.2]

/-- C7: triggering the DMA channel with length = 0 and samples_played = 0
yields exactly 8192 nibble-samples: each of the first 8192 ticks emits a
nibble with samples_played counting up and triggered still set, and the
8193rd tick observes samples_played = 2 * 4096, clears triggered and
silences the entire output sample. -/
theorem c7_dma_length0 (rd : Nat → Nat) (d0 d : SV_DMA_CHANNEL)
    (hl : d0.length = 0) (hs : d0.samples_played = 0)
    (ht : sound_dma_write rd 4 0x80 d0 = some d) :
    (∀ k ≤ 8192, (dmaIter rd k d).samples_played = k ∧
      (dmaIter rd k d).triggered = true) ∧
    (∀ k < 8192, ∃ out, (dma_step rd (dmaIter rd k d)).2 = some out) ∧
    (dma_step rd (dmaIter rd 8192 d)).2 = none ∧
    (dmaIter rd 8193 d).triggered = false ∧
    (∀ s : SoundState, s.dma = dmaIter rd 8192 d →
      (sound_generate_sample rd s).2 = 0 ∧
      (sound_generate_sample rd s).1.dma.triggered = false) := by
  have hd : d = { d0 with reg4 := 0x80, triggered := true, current_address := d0.address, samples_played := 0, position := 0, high_nibble := true, current_byte := rd d0.address % 256 } := by
    unfold sound_dma_write at ht
    simp [hs] at ht
    exact ht.symm
  have htd : d.triggered = true := by rw [hd]
  have hld : d.length = 0 := by rw [hd]; simpa using hl
  have hsd : d.samples_played = 0 := by rw [hd]
  have hinv := dmaIter_inv rd d htd hld hsd
  have h8192 := hinv 8192 (by omega)
  have hend : (dma_step rd (dmaIter rd 8192 d)).2 = none ∧
      (dma_step rd (dmaIter rd 8192 d)).1.triggered = false := by
    unfold dma_step
    rw [h8192.1, h8192.2.1, h8192.2.2]
    simp
  refine ⟨?_, ?_, hend.1, ?_, ?_⟩
  · intro k hk
    exact ⟨(hinv k hk).2.2, (hinv k hk).1⟩
  · intro k hk
    have hj := hinv k (by omega)
    exact (dma_step_run rd (dmaIter rd k d) hj.1 hj.2.1 (by omega)).2.2.2
  · have h81 : (8193 : Nat) = 8192 + 1 := by norm_num
    rw [h81, dmaIter_succ]
    exact hend.2
  · intro s hsdma
    have h2 : (dma_step rd s.dma).2 = none := by rw [hsdma]; exact hend.1
    have h1 : (dma_step rd s.dma).1.triggered = false := by rw [hsdma]; exact hend.2
    constructor
    · simp [sound_generate_sample, h2]
    · simp [sound_generate_sample, h2, h1]

/-- DMA channel state right after a fresh trigger from the zeroed initial
state (bit 7 written to the trigger register). -/
def dmaTriggered0 : SV_DMA_CHANNEL :=
  { initDma with reg4 := 0x80, triggered := true, high_nibble := true }

/-- Witness for c7_dma_length0: from a fresh trigger of the zeroed DMA
channel, after 8192 ticks the channel is still triggered having counted all
8192 nibble-samples, and the 8193rd tick clears the trigger. -/
theorem c7_dma_length0_witness :
    (dmaIter (fun _ => 0) 8192 dmaTriggered0).samples_played = 8192 ∧
    (dmaIter (fun _ => 0) 8192 dmaTriggered0).triggered = true ∧
    (dmaIter (fun _ => 0) 8193 dmaTriggered0).triggered = false := by
  have h := c7_dma_length0 (fun _ => 0) initDma dmaTriggered0 rfl rfl (by decide)
  exact ⟨(h.1 8192 (by omega)).1, (h.1 8192 (by omega)).2, h.2.2.2.1⟩

/-- Mixing formula of the spec, pulse part: a pulse channel contributes its
volume (identically to the left and right legs) exactly when it is enabled
with a positive size and its pre-advance position lies below the duty
threshold. -/
def spec_pulse_contrib (c : SV_CHANNEL) : Nat :=
  if c.enabled ∧ 0 < c.size ∧ c.position < get_duty_threshold c then c.volume else 0

/-- Mixing formula of the spec, noise left leg: the noise channel
contributes its volume to the left leg exactly when it was enabled entering
the tick, remains enabled after its advance, the advanced LFSR's low bit is
set and the left output flag is set. -/
def spec_noise_contrib_left (n0 : SV_NOISE_CHANNEL) : Nat :=
  let n := noise_step n0
  if n0.noise_enable ∧ n.noise_enable ∧ n.lfsr &&& 1 ≠ 0 ∧ n.left_output then n.volume else 0

/-- Mixing formula of the spec, noise right leg (gated by the right output
flag). -/
def spec_noise_contrib_right (n0 : SV_NOISE_CHANNEL) : Nat :=
  let n := noise_step n0
  if n0.noise_enable ∧ n.noise_enable ∧ n.lfsr &&& 1 ≠ 0 ∧ n.right_output then n.volume else 0

/-- Mixing formula of the spec, DMA part: a triggered DMA channel
contributes the high or low nibble of its current byte. -/
def spec_dma_nibble (d : SV_DMA_CHANNEL) : Nat :=
  if d.triggered then
    if d.high_nibble then (d.current_byte >>> 4) &&& 0x0F else d.current_byte &&& 0x0F
  else 0

/-- Total nibble-sample budget of a DMA playback: 2 nibbles for each of the
4096 (length = 0) or length * 16 bytes. -/
def dma_total_samples (d : SV_DMA_CHANNEL) : Nat :=
  (if d.length = 0 then 4096 else d.length * 16) * 2

/-- Mixing formula claimed by the spec for a produced sample: the two pulse
contributions summed identically into left and right, the noise
contribution gated by its own left/right flags, the DMA nibble added after
averaging the left+right sum, no clamping, all scaled by 256. -/
def spec_mixed_sample (s : SoundState) : Nat :=
  (spec_dma_nibble s.dma +
    (spec_pulse_contrib s.ch0 + spec_pulse_contrib s.ch1 + spec_noise_contrib_left s.noise +
      (spec_pulse_contrib s.ch0 + spec_pulse_contrib s.ch1 + spec_noise_contrib_right s.noise)) / 2) * 256

/-- The contribution computed inside pulse_step agrees with the spec's
pulse mixing formula. -/
theorem pulse_step_contrib (c : SV_CHANNEL) :
    (pulse_step c).2 = spec_pulse_contrib c := by
  unfold pulse_step spec_pulse_contrib
  dsimp only
  repeat' split
  all_goals simp_all

/-- When the DMA channel is not on its exhaustion tick, dma_step emits
exactly the spec's DMA nibble. -/
theorem dma_step_out_eq (rd : Nat → Nat) (d : SV_DMA_CHANNEL)
    (h : ¬(d.triggered = true ∧ dma_total_samples d ≤ d.samples_played)) :
    (dma_step rd d).2 = some (spec_dma_nibble d) := by
  unfold dma_step spec_dma_nibble dma_total_samples at *
  dsimp only
  repeat' split
  all_goals simp_all

/-- C6 amended: on every tick on which the DMA channel is not exhausting
(not triggered, or samples_played still below its total budget), the
produced sample equals the spec's mixing formula: pulse contributions
summed identically into both legs, noise gated by its own left/right
flags, the DMA nibble added after averaging the two legs, no clamping,
scaled by 256.  (On the exhaustion tick the code instead returns 0,
discarding the pulse/noise mix — see the counterexample.) -/
theorem c6_mixing_amended (rd : Nat → Nat) (s : SoundState)
    (h : ¬(s.dma.triggered = true ∧ dma_total_samples s.dma ≤ s.dma.samples_played)) :
    (sound_generate_sample rd s).2 = spec_mixed_sample s := by
  have hd := dma_step_out_eq rd s.dma h
  unfold sound_generate_sample spec_mixed_sample
  dsimp only
  rw [hd]
  rw [pulse_step_contrib, pulse_step_contrib]
  by_cases hn : s.noise.noise_enable = true
  · simp [hn, spec_noise_contrib_left, spec_noise_contrib_right, noise_step]
  · simp [hn, spec_noise_contrib_left, spec_noise_contrib_right, noise_step]

/-- Sound state exercising large mix sums: both pulse channels enabled at
volume 15 in their high phase, the noise channel enabled at volume 15
mixing into both legs, DMA idle. -/
def sBig : SoundState :=
  { ch0 := { initChannel with enabled := true, duty := 2, volume := 15, size := 8 },
    ch1 := { initChannel with enabled := true, duty := 2, volume := 15, size := 8 },
    noise := { initNoise with noise_enable := true, left_output := true, right_output := true, volume := 15 },
    dma := initDma }

/-- Witness for c6_mixing_amended: on sBig the produced sample is
(0 + (45 + 45) / 2) * 256 = 11520 — the per-leg sum 45 far exceeds the
nominal 0..15 range and passes through unclamped. -/
theorem c6_mixing_amended_witness :
    (sound_generate_sample (fun _ => 0) sBig).2 = 11520 ∧ 15 < 45 := by
  have h := c6_mixing_amended (fun _ => 0) sBig (by decide)
  constructor
  · rw [h]
    decide
  · decide

/-- Sound state on a DMA exhaustion tick with a pulse channel audible:
channel 0 would contribute volume 5, but the DMA budget (8192) is spent. -/
def sCex : SoundState :=
  { ch0 := { initChannel with enabled := true, duty := 2, volume := 5, size := 2 },
    ch1 := initChannel,
    noise := initNoise,
    dma := { initDma with triggered := true, samples_played := 8192 } }

/-- C6 counterexample: on the DMA exhaustion tick the code returns 0 and
discards the pulse/noise mix, so the produced sample does not equal the
spec's mixing formula (which yields (0 + (5 + 5) / 2) * 256 = 1280). -/
theorem c6_mixing_cex :
    (sound_generate_sample (fun _ => 0) sCex).2 ≠ spec_mixed_sample sCex := by
  decide

end WataraSV
